import Mathlib

/-!
Verification of the legal-council orchestration engine.

This file gives a shallow embedding of the orchestration core of the
repository (src/core/engine.py, src/core/unified_engine.py,
src/core/rag_pipeline.py) and proves properties of its routing, guard,
stage-node error handling, state-patch merging, chat retry loop and
retrieval subsystem.

External collaborators (the text-generation model, the structured agents,
the embedding function) are modelled as explicit function parameters
("oracles"); a collaborator call that raises a Python exception is
modelled as `Except.error`.

LangGraph state merging is modelled by `applyPatch`: a stage returns a
partial patch; every channel except `messages` is a last-value channel
(the patched value replaces the previous one), while `messages` is
annotated with the `add_messages` reducer, modelled by `addMessages`.
-/

/-- Python slicing `s[:n]` (equivalent to `String.take`, defined over the
character list so that concrete runs reduce). -/
def strTake (s : String) (n : Nat) : String := String.mk (s.toList.take n)

/-- Python `str.upper()` (equivalent to `String.toUpper`, defined over the
character list so that concrete runs reduce). -/
def strToUpper (s : String) : String := String.mk (s.toList.map Char.toUpper)

/-- Boolean substring test: `containsSub needle hay` is `true` iff `needle`
occurs contiguously inside `hay` (models Python's `in` on strings). -/
def containsSub (needle hay : String) : Bool :=
  (List.range (hay.length + 1)).any (fun i => needle.toList.isPrefixOf (hay.toList.drop i))

/-- Message roles (langchain `SystemMessage` / `HumanMessage` / `AIMessage` /
`ToolMessage`). -/
inductive Role where
  | system
  | human
  | ai
  | tool
deriving DecidableEq

/-- A conversation message.  `id` is the optional langchain message id used
by the `add_messages` reducer (`none` models a message constructed without
an explicit id, which the reducer always appends under a fresh uuid).
`tool_calls` carries requested tool invocations. -/
structure Message where
  role : Role
  content : String
  id : Option String
  tool_calls : List String
deriving DecidableEq

/-- A Python dict with string keys and values (models the structured
records stored in `discovery` / `analysis` / `final_summary`). -/
abbrev PyDict := List (String × String)

/-- Python truthiness of an optional dict: `None` and `{}` are falsy
(models `state.get("final_summary")` used as a condition). -/
def truthyDict : Option PyDict → Bool
  | none => false
  | some d => !d.isEmpty

/-- The shared session state (`AgentState` TypedDict of engine.py; the
unified engine's `AgentState` is the sub-record without
`discovery`/`analysis`).  A missing key is modelled by the neutral value
returned by `state.get`: `none`, `false`, `[]` or `""`. -/
structure AgentState where
  messages : List Message
  raw_text : String
  discovery : Option PyDict
  analysis : Option PyDict
  final_summary : Option PyDict
  mode : Option String
  is_legal : Bool
  errors : List String
deriving DecidableEq

/-- A partial state update returned by a stage node: `some v` means the
key is present in the returned dict, `none` that it is absent. -/
structure Patch where
  messages : Option (List Message) := none
  raw_text : Option String := none
  discovery : Option PyDict := none
  analysis : Option PyDict := none
  final_summary : Option PyDict := none
  mode : Option (Option String) := none
  is_legal : Option Bool := none
  errors : Option (List String) := none
deriving DecidableEq

/-- One step of langgraph's `add_messages` reducer: a message without an id
is appended (the reducer assigns it a fresh uuid); a message whose id
matches an existing one replaces it in place; otherwise it is appended. -/
def addOneMessage (old : List Message) (m : Message) : List Message :=
  match m.id with
  | none => old ++ [m]
  | some i =>
    if old.any (fun x => x.id == some i) then
      old.map (fun x => if x.id == some i then m else x)
    else old ++ [m]

/-- The `add_messages` reducer on the `messages` channel. -/
def addMessages (old new : List Message) : List Message :=
  new.foldl addOneMessage old

/-- Merge a stage patch into the session state: every channel except
`messages` is a last-value channel, `messages` uses `addMessages`. -/
def applyPatch (s : AgentState) (p : Patch) : AgentState where
  messages :=
    match p.messages with
    | none => s.messages
    | some ms => addMessages s.messages ms
  raw_text := p.raw_text.getD s.raw_text
  discovery :=
    match p.discovery with
    | none => s.discovery
    | some d => some d
  analysis :=
    match p.analysis with
    | none => s.analysis
    | some d => some d
  final_summary :=
    match p.final_summary with
    | none => s.final_summary
    | some d => some d
  mode := p.mode.getD s.mode
  is_legal := p.is_legal.getD s.is_legal
  errors := p.errors.getD s.errors

theorem applyPatch_empty (s : AgentState) : applyPatch s {} = s := rfl

/-- A document chunk held by the retrieval index
(`{text, start_index, doc_id}` metadata of rag_pipeline.py). -/
structure Chunk where
  text : String
  start_index : Nat
  doc_id : String
deriving DecidableEq

/-- The RAG pipeline (`LegalRAG` of rag_pipeline.py): an embedding
capability and an optional vector store.  The store is modelled as the
list of indexed chunks; similarity of a query to a chunk is the dot
product of their embeddings. -/
structure LegalRAG where
  emb : String → List Int
  vector_db : Option (List Chunk)

/-- `LegalRAG.__init__`: the embedding backend is chosen externally;
`vector_db` starts unset (`None`). -/
def LegalRAG.init (emb : String → List Int) : LegalRAG :=
  { emb := emb, vector_db := none }

/-- Fixed-window splitter (RecursiveCharacterTextSplitter with
chunk_size=1000, chunk_overlap=100, add_start_index=True): windows of at
most 1000 characters starting every 900 characters, each tagged with its
start offset.  The first argument is fuel (strictly larger than the
number of windows). -/
def splitAux : Nat → List Char → Nat → List (String × Nat)
  | 0, _, _ => []
  | _, [], _ => []
  | Nat.succ fuel, cs, start =>
    if cs.length ≤ 1000 then [(String.mk cs, start)]
    else (String.mk (cs.take 1000), start) :: splitAux fuel (cs.drop 900) (start + 900)

def split_text (t : String) : List (String × Nat) :=
  splitAux (t.length + 1) t.toList 0

/-- `LegalRAG.index_document`: split the text into chunks tagged with the
given document id and add them to the store.  Indexing is additive: the
chunks already in the persisted collection remain. -/
def LegalRAG.index_document (rag : LegalRAG) (text : String) (docId : String) : LegalRAG :=
  let chunks := (split_text text).map
    (fun p => ({ text := p.1, start_index := p.2, doc_id := docId } : Chunk))
  { rag with vector_db := some (rag.vector_db.getD [] ++ chunks) }

def dotInt (a b : List Int) : Int :=
  (List.zipWith (fun x y => x * y) a b).sum

/-- Similarity score of a chunk for a query: the query text is embedded
and compared with the chunk's embedding. -/
def LegalRAG.score (rag : LegalRAG) (q : String) (c : Chunk) : Int :=
  dotInt (rag.emb q) (rag.emb c.text)

/-- `similarity_search(query, k)`: the `k` chunks of the store with the
highest similarity score. -/
def LegalRAG.similarity_search (rag : LegalRAG) (chunks : List Chunk) (q : String) (k : Nat) :
    List Chunk :=
  (chunks.mergeSort (fun a b => decide (rag.score q b ≤ rag.score q a))).take k

/-- `LegalRAG.query_contract`: returns the fixed string when nothing has
been indexed yet, otherwise the top-3 chunks by similarity over the whole
store. -/
def LegalRAG.query_contract (rag : LegalRAG) (q : String) : String ⊕ List Chunk :=
  match rag.vector_db with
  | none => Sum.inl "No document indexed."
  | some chunks => Sum.inr (rag.similarity_search chunks q 3)

namespace Engine

/-- The classification prompt of `validator_node` (wording abridged; only
the embedded text snippet matters for the control flow). -/
def validatorPrompt (snippet : String) : String :=
  "You are a legal gatekeeper. Analyze the following text snippet. Is this a legal document (contract, NDA, lease, etc.)? Respond with exactly one word: YES or NO. TEXT: " ++ snippet

def notLegalMsg : String :=
  "The uploaded file does not appear to be a legal document."

/-- `validator_node` of engine.py: sends the first 2000 characters of the
raw text to the model and reads a YES/NO verdict.  The model call is NOT
wrapped in try/except, so a collaborator exception propagates out of the
node (hence the `Except` return type). -/
def validator_node (llm : String → Except String String) (s : AgentState) :
    Except String Patch :=
  match llm (validatorPrompt (strTake s.raw_text 2000)) with
  | .error e => .error e
  | .ok content =>
    let is_legal := containsSub "YES" (strToUpper content)
    .ok { is_legal := some is_legal,
          errors := some (if is_legal then [] else [notLegalMsg]) }

/-- `indexer_node` of engine.py: indexes a non-empty raw text into the
shared RAG store under a fresh document id and returns an empty patch. -/
def indexer_node (rag : LegalRAG) (docId : String) (s : AgentState) : LegalRAG × Patch :=
  if s.raw_text ≠ "" then (rag.index_document s.raw_text docId, {}) else (rag, {})

/-- `discovery_node` of engine.py: calls the discovery agent on the first
30000 characters (the oracle input carries the `contract_text` payload);
an agent exception is caught and converted into an errors entry. -/
def discovery_node (agent : PyDict → Except String PyDict) (s : AgentState) : Patch :=
  match agent [("contract_text", strTake s.raw_text 30000)] with
  | .ok r => { discovery := some r }
  | .error e => { errors := some ["Discovery error: " ++ e] }

/-- `analyzer_node` of engine.py: builds the agent input
`{"extracted_json": state["discovery"]}` OUTSIDE the try block — when the
`discovery` channel was never written (reachable right after a discovery
failure, whose patch writes only `errors`) the bracket access raises an
uncaught KeyError that propagates out of the node and aborts the run;
only an exception of the agent call itself is caught and converted into
an errors entry. -/
def analyzer_node (agent : PyDict → Except String PyDict) (s : AgentState) :
    Except String Patch :=
  match s.discovery with
  | none => .error "KeyError: discovery"
  | some d =>
    match agent d with
    | .ok r => .ok { analysis := some r }
    | .error e => .ok { errors := some ["Analysis error: " ++ e] }

/-- `translator_node` of engine.py: builds the agent input from
`state["discovery"]` and `state["analysis"]` OUTSIDE the try block (the
dict literal evaluates `discovery` first) — a missing channel (reachable
after an upstream failure) raises an uncaught KeyError that propagates
out of the node and aborts the run; only an exception of the agent call
itself is caught and converted into an errors entry. -/
def translator_node (agent : PyDict × PyDict → Except String PyDict)
    (s : AgentState) : Except String Patch :=
  match s.discovery with
  | none => .error "KeyError: discovery"
  | some d =>
    match s.analysis with
    | none => .error "KeyError: analysis"
    | some a =>
      match agent (d, a) with
      | .ok r => .ok { final_summary := some r }
      | .error e => .ok { errors := some ["Translation error: " ++ e] }

/-- `route_after_validation` of engine.py: continue to discovery only if
`is_legal` is truthy and `errors` is falsy. -/
def route_after_validation (s : AgentState) : String :=
  if s.is_legal && s.errors.isEmpty then "discovery" else "end"

/-- `route_entry` of engine.py: `state.get("mode", "analyze")`; chat only
when the mode is "chat", the final summary is truthy and errors is falsy;
any other mode value falls back to the analysis entry. -/
def route_entry (s : AgentState) : String :=
  let mode := s.mode.getD "analyze"
  if mode = "analyze" then "validator"
  else if mode = "chat" then
    if truthyDict s.final_summary && s.errors.isEmpty then "chat_agent"
    else "validator"
  else "validator"

/-- The collaborator doubles of the four analysis stages. -/
structure Oracles where
  llm : String → Except String String
  discovery : PyDict → Except String PyDict
  analyzer : PyDict → Except String PyDict
  translator : PyDict × PyDict → Except String PyDict

/-- The analysis branch of `create_legal_engine` in engine.py, together
with the list of stage nodes that executed.  After `validator` the graph
has an unconditional edge to `indexer` (whose patch is empty; its index
write is modelled by `LegalRAG.index_document`) and a conditional edge
gated by `route_after_validation`; `discovery → analyzer → translator`
are unconditional edges.  An uncaught exception escaping a node — the
validator's collaborator exception, or the analyzer's/translator's
KeyError on a missing input channel — aborts the run (`Except.error`). -/
def runAnalysisBranch (o : Oracles) (s0 : AgentState) :
    Except String (AgentState × List String) :=
  match validator_node o.llm s0 with
  | .error e => .error e
  | .ok p =>
    let s1 := applyPatch (applyPatch s0 p) {}
    if route_after_validation s1 = "discovery" then
      let s2 := applyPatch s1 (discovery_node o.discovery s1)
      match analyzer_node o.analyzer s2 with
      | .error e => .error e
      | .ok p3 =>
        let s3 := applyPatch s2 p3
        match translator_node o.translator s3 with
        | .error e => .error e
        | .ok p4 =>
          .ok (applyPatch s3 p4,
            ["validator", "indexer", "discovery", "analyzer", "translator"])
    else
      .ok (s1, ["validator", "indexer"])

end Engine

namespace Unified

/-- The structured result of the unified extraction agent
(`result.is_legal` attribute and `result.model_dump()`). -/
structure BrainResult where
  is_legal : Bool
  dump : PyDict
deriving DecidableEq

def notRecognizedMsg : String := "Not a recognized legal document."

/-- `brain_node` of unified_engine.py: single-pass analysis on the first
15000 characters.  A non-legal verdict produces only an error entry (no
summary); a legal verdict stores the full dump as `final_summary` and
clears `errors`; an agent exception is caught and converted into an
errors entry. -/
def brain_node (agent : String → Except String BrainResult) (s : AgentState) : Patch :=
  match agent (strTake s.raw_text 15000) with
  | .ok r =>
    if !r.is_legal then
      { is_legal := some false, errors := some [notRecognizedMsg] }
    else
      { is_legal := some true, final_summary := some r.dump, errors := some [] }
  | .error e => { errors := some ["Brain error: " ++ e] }

/-- `route_entry` of unified_engine.py: `state.get("mode")` with no
default; chat only when the mode is "chat", the final summary is truthy
and errors is falsy; every other case (including a missing or malformed
mode) falls back to "brain". -/
def route_entry (s : AgentState) : String :=
  if s.mode = some "analyze" then "brain"
  else if s.mode = some "chat" then
    if truthyDict s.final_summary && s.errors.isEmpty then "chat_agent"
    else "brain"
  else "brain"

/-- The literal tool-call markup markers scanned for in the model's text
(an opening function-calls tag and an opening invoke tag). -/
def leakedTag1 : String := "<" ++ "function_calls" ++ ">"

def leakedTag2 : String := "<" ++ "invoke" ++ ">"

/-- A model response leaks tool-call markup when its text contains either
marker literally. -/
def leaked (m : Message) : Bool :=
  containsSub leakedTag1 m.content || containsSub leakedTag2 m.content

def apos : String := String.mk [Char.ofNat 39]

/-- The fixed graceful-degradation message emitted when the retry ceiling
is exhausted. -/
def fallbackContent : String :=
  "Sorry, I" ++ apos ++ "m having trouble thinking clearly. Let" ++ apos
    ++ "s try that question again?"

/-- The fallback `AIMessage` (constructed without an id). -/
def fallbackMessage : Message :=
  { role := Role.ai, content := fallbackContent, id := none, tool_calls := [] }

/-- The corrective system instruction appended before a retry. -/
def correctionMessage : Message :=
  { role := Role.system,
    content := "Your last response had invalid XML. Respond in plain text only, no tags. Use tools internally if needed.",
    id := none, tool_calls := [] }

/-- The system prompt of `chat_agent` (wording abridged; it is built from
the `doc_type` and `verdict` entries of the final summary, with the
defaults of the source). -/
def systemContent (s : AgentState) : String :=
  let summary := s.final_summary.getD []
  let doc_type := (summary.lookup "doc_type").getD "the agreement"
  let verdict := (summary.lookup "verdict").getD "N/A"
  "You are a supportive Legal Career Coach. Document: " ++ doc_type
    ++ ". Recommendation: " ++ verdict
    ++ ". NEVER output raw XML or tags. Respond in plain, natural English only."

/-- `chat_agent` of unified_engine.py: the Chat Tool Loop.  The model is
invoked on [system prompt] ++ history; a `for _ in range(2)` loop retries
once after appending the offending response and a corrective system
instruction when the response text contains leaked tool-call markup; when
both attempts leak, the fixed fallback message is returned instead.  The
second component counts the model invocations made. -/
def chat_agent (llm : List Message → Message) (s : AgentState) : Patch × Nat :=
  let sys : Message :=
    { role := Role.system, content := systemContent s, id := none, tool_calls := [] }
  let messages := sys :: s.messages
  let r1 := llm messages
  if leaked r1 then
    let messages2 := messages ++ [r1, correctionMessage]
    let r2 := llm messages2
    if leaked r2 then ({ messages := some [fallbackMessage] }, 2)
    else ({ messages := some [r2] }, 2)
  else ({ messages := some [r1] }, 1)

/-- One chat turn driven by unified_main.py: the caller's input patch
(`{"messages": [HumanMessage(query)], "mode": "chat"}`) is merged into
the checkpointed state, the router node re-writes `mode`, and the
`chat_agent` patch is merged.  The model double returns the fixed
response `resp` for this turn. -/
def chatTurn (userMsg resp : Message) (s : AgentState) : AgentState :=
  let s1 := applyPatch s { messages := some [userMsg], mode := some (some "chat") }
  let s2 := applyPatch s1 { mode := some s1.mode }
  applyPatch s2 (chat_agent (fun _ => resp) s2).1

/-- A sequence of chat turns, each given by the user message and the model
response of that turn. -/
def runChatTurns (turns : List (Message × Message)) (s : AgentState) : AgentState :=
  turns.foldl (fun st t => chatTurn t.1 t.2 st) s

/-- The analysis path of `create_legal_engine` in unified_engine.py:
`brain` followed by `indexer` (whose patch is empty). -/
def runAnalyzePath (agent : String → Except String BrainResult) (s0 : AgentState) :
    AgentState :=
  applyPatch (applyPatch s0 (brain_node agent s0)) {}

end Unified

/-- A fresh session state: the neutral value of every channel (this is the
initial state `{"raw_text": "", "messages": [], "errors": []}` of main.py,
with every unset key at its `state.get` default). -/
def baseState : AgentState :=
  { messages := [], raw_text := "", discovery := none, analysis := none,
    final_summary := none, mode := none, is_legal := false, errors := [] }

/-- A state in which a prior analysis succeeded: chat mode requested,
non-empty final summary, no errors. -/
def chatReadyState : AgentState :=
  { baseState with mode := some "chat", final_summary := some [("doc_type", "NDA")] }

theorem errors_isEmpty_iff (s : AgentState) : s.errors.isEmpty = true ↔ s.errors = [] := by
  cases h : s.errors <;> simp [List.isEmpty]

/-- C1: the entry router is a pure function of `mode`, `final_summary` and
`errors` in both engines; it returns the chat stage exactly when the mode
is "chat", the final summary is set (a truthy, i.e. present and
non-empty, record — the Python guard `state.get("final_summary")`) and
`errors` is empty; in every other case — including a missing, malformed
or ambiguous mode value — it returns the analysis entry ("validator" in
engine.py, "brain" in unified_engine.py). -/
theorem c1_entry_router :
    (∀ s t : AgentState, s.mode = t.mode → s.final_summary = t.final_summary →
      s.errors = t.errors →
      Engine.route_entry s = Engine.route_entry t ∧
      Unified.route_entry s = Unified.route_entry t) ∧
    (∀ s : AgentState,
      (Engine.route_entry s = "chat_agent" ↔
        (s.mode = some "chat" ∧ truthyDict s.final_summary = true ∧ s.errors = [])) ∧
      (Engine.route_entry s ≠ "chat_agent" → Engine.route_entry s = "validator") ∧
      (Unified.route_entry s = "chat_agent" ↔
        (s.mode = some "chat" ∧ truthyDict s.final_summary = true ∧ s.errors = [])) ∧
      (Unified.route_entry s ≠ "chat_agent" → Unified.route_entry s = "brain")) := by
  have dichE : ∀ s : AgentState,
      Engine.route_entry s = "chat_agent" ∨ Engine.route_entry s = "validator" := by
    intro s
    unfold Engine.route_entry
    by_cases hA : s.mode.getD "analyze" = "analyze"
    · right; rw [if_pos hA]
    · by_cases hB : s.mode.getD "analyze" = "chat"
      · rw [if_neg hA, if_pos hB]
        by_cases hC : (truthyDict s.final_summary && s.errors.isEmpty) = true
        · left; rw [if_pos hC]
        · right; rw [if_neg hC]
      · right; rw [if_neg hA, if_neg hB]
  have dichU : ∀ s : AgentState,
      Unified.route_entry s = "chat_agent" ∨ Unified.route_entry s = "brain" := by
    intro s
    unfold Unified.route_entry
    by_cases hA : s.mode = some "analyze"
    · right; rw [if_pos hA]
    · by_cases hB : s.mode = some "chat"
      · rw [if_neg hA, if_pos hB]
        by_cases hC : (truthyDict s.final_summary && s.errors.isEmpty) = true
        · left; rw [if_pos hC]
        · right; rw [if_neg hC]
      · right; rw [if_neg hA, if_neg hB]
  constructor
  · intro s t hm hf he
    constructor
    · simp only [Engine.route_entry, hm, hf, he]
    · simp only [Unified.route_entry, hm, hf, he]
  · intro s
    refine ⟨?_, fun hne => (dichE s).resolve_left hne, ?_,
      fun hne => (dichU s).resolve_left hne⟩
    · rcases hm : s.mode with _ | m
      · simp only [Engine.route_entry, hm, Option.getD_none]
        simp
      · simp only [Engine.route_entry, hm, Option.getD_some]
        by_cases h1 : m = "analyze"
        · subst h1
          rw [if_pos rfl]
          constructor
          · intro h; exact absurd h (by decide)
          · rintro ⟨h, -⟩
            rw [Option.some_inj] at h
            exact absurd h (by decide)
        · rw [if_neg h1]
          by_cases h2 : m = "chat"
          · subst h2
            rw [if_pos rfl]
            by_cases hb : (truthyDict s.final_summary && s.errors.isEmpty) = true
            · rw [if_pos hb]
              have h4 := Bool.and_eq_true_iff.mp hb
              exact ⟨fun _ => ⟨rfl, h4.1, (errors_isEmpty_iff s).mp h4.2⟩, fun _ => rfl⟩
            · rw [if_neg hb]
              constructor
              · intro h; exact absurd h (by decide)
              · rintro ⟨-, ht, he⟩
                exact absurd (by simp [ht, (errors_isEmpty_iff s).mpr he]) hb
          · rw [if_neg h2]
            constructor
            · intro h; exact absurd h (by decide)
            · rintro ⟨h, -⟩
              rw [Option.some_inj] at h
              exact absurd h h2
    · rcases hm : s.mode with _ | m
      · simp only [Unified.route_entry, hm]
        simp
      · simp only [Unified.route_entry, hm]
        by_cases h1 : m = "analyze"
        · subst h1
          rw [if_pos rfl]
          constructor
          · intro h; exact absurd h (by decide)
          · rintro ⟨h, -⟩
            rw [Option.some_inj] at h
            exact absurd h (by decide)
        · rw [if_neg (by simpa using h1)]
          by_cases h2 : m = "chat"
          · subst h2
            rw [if_pos rfl]
            by_cases hb : (truthyDict s.final_summary && s.errors.isEmpty) = true
            · rw [if_pos hb]
              have h4 := Bool.and_eq_true_iff.mp hb
              exact ⟨fun _ => ⟨rfl, h4.1, (errors_isEmpty_iff s).mp h4.2⟩, fun _ => rfl⟩
            · rw [if_neg hb]
              constructor
              · intro h; exact absurd h (by decide)
              · rintro ⟨-, ht, he⟩
                exact absurd (by simp [ht, (errors_isEmpty_iff s).mpr he]) hb
          · rw [if_neg (by simpa using h2)]
            constructor
            · intro h; exact absurd h (by decide)
            · rintro ⟨h, -⟩
              rw [Option.some_inj] at h
              exact absurd h h2

/-- Witness for C1 at concrete states: a chat-ready state routes to the
chat stage in both engines, and the fresh state (no mode, no summary)
routes to the analysis entry in both engines. -/
theorem c1_entry_router_witness :
    Engine.route_entry chatReadyState = "chat_agent" ∧
    Unified.route_entry chatReadyState = "chat_agent" ∧
    Engine.route_entry baseState = "validator" ∧
    Unified.route_entry baseState = "brain" := by
  refine ⟨?_, ?_, ?_, ?_⟩
  · exact ((c1_entry_router.2 chatReadyState).1).mpr ⟨rfl, by decide, rfl⟩
  · exact ((c1_entry_router.2 chatReadyState).2.2.1).mpr ⟨rfl, by decide, rfl⟩
  · exact ((c1_entry_router.2 baseState).2.1) (by decide)
  · exact ((c1_entry_router.2 baseState).2.2.2) (by decide)

/-- An analysis-path initial state with a non-empty document. -/
def c2State : AgentState :=
  { baseState with raw_text := "Employment Agreement between A and B" }

/-- Collaborator doubles for which validation succeeds, the discovery
agent raises, and the later agents succeed. -/
def c2Oracles : Engine.Oracles :=
  { llm := fun _ => .ok "YES",
    discovery := fun _ => .error "boom",
    analyzer := fun _ => .ok [("risk", "high")],
    translator := fun _ => .ok [("summary", "done")] }

/-- The patch the validator returns for a legal verdict. -/
def c2yPatch : Patch := { is_legal := some true, errors := some [] }

/-- The session state the analyzer receives after a failed discovery:
`errors` holds the discovery error, the `discovery` channel is still
unwritten. -/
def c2AfterDiscovery : AgentState :=
  applyPatch (applyPatch c2State c2yPatch) { errors := some ["Discovery error: boom"] }

/-- C2 counterexample: the claim says the guard is evaluated after every
analysis Stage Node, so no further analysis stage executes once `errors`
is non-empty.  In this concrete run the discovery agent raises and
`errors` becomes `["Discovery error: boom"]` — yet no guard intervenes:
the analyzer stage is still entered (`discovery → analyzer` is an
unconditional edge; the only guard sits after `validator`) and, because
the `discovery` channel was never written, its `state["discovery"]`
access raises an uncaught KeyError that aborts the whole run instead of
ending it. -/
theorem c2_counterexample :
    Engine.validator_node c2Oracles.llm c2State = .ok c2yPatch ∧
    Engine.discovery_node c2Oracles.discovery (applyPatch c2State c2yPatch) =
      { errors := some ["Discovery error: boom"] } ∧
    c2AfterDiscovery.errors = ["Discovery error: boom"] ∧
    Engine.analyzer_node c2Oracles.analyzer c2AfterDiscovery =
      .error "KeyError: discovery" ∧
    Engine.runAnalysisBranch c2Oracles c2State = .error "KeyError: discovery" :=
  ⟨rfl, rfl, rfl, rfl, rfl⟩

/-- Helper: whenever `errors` is non-empty after the validator patch is
merged, the analysis branch stops with only validator and indexer having
executed. -/
theorem runAnalysisBranch_stops_of_errors (o : Engine.Oracles) (s : AgentState) (p : Patch)
    (hv : Engine.validator_node o.llm s = .ok p)
    (he : (applyPatch s p).errors ≠ []) :
    Engine.runAnalysisBranch o s = .ok (applyPatch s p, ["validator", "indexer"]) := by
  have hIE : (applyPatch s p).errors.isEmpty = false := by
    cases hb : (applyPatch s p).errors.isEmpty
    · rfl
    · exact absurd ((errors_isEmpty_iff _).mp hb) he
  have hroute : Engine.route_after_validation (applyPatch s p) = "end" := by
    unfold Engine.route_after_validation
    rw [hIE, Bool.and_false, if_neg (by decide)]
  simp only [Engine.runAnalysisBranch, hv]
  rw [applyPatch_empty, hroute, if_neg (by decide)]

/-- C2 amended: the guard `route_after_validation` is evaluated only after
the validation stage.  First conjunct: whenever `errors` is non-empty
after the validator patch is merged, none of
discovery/analyzer/translator executes (the run stops with only validator
and indexer in the trace).  Second conjunct: an error recorded by the
discovery stage triggers no guard — the analyzer stage is entered anyway
and, the `discovery` channel being unwritten, the run aborts with an
uncaught KeyError instead of ending. -/
theorem c2_guard_only_after_validation :
    (∀ (o : Engine.Oracles) (s : AgentState) (p : Patch),
      Engine.validator_node o.llm s = .ok p →
      (applyPatch s p).errors ≠ [] →
      Engine.runAnalysisBranch o s = .ok (applyPatch s p, ["validator", "indexer"])) ∧
    (∀ (o : Engine.Oracles) (s : AgentState) (p : Patch) (es : List String),
      Engine.validator_node o.llm s = .ok p →
      Engine.route_after_validation (applyPatch s p) = "discovery" →
      (applyPatch s p).discovery = none →
      Engine.discovery_node o.discovery (applyPatch s p) = { errors := some es } →
      Engine.runAnalysisBranch o s = .error "KeyError: discovery") := by
  constructor
  · exact runAnalysisBranch_stops_of_errors
  · intro o s p es hv hroute hdnone hdisc
    simp only [Engine.runAnalysisBranch, hv]
    rw [applyPatch_empty, hroute, if_pos rfl, hdisc]
    have h2 : (applyPatch (applyPatch s p) { errors := some es }).discovery = none :=
      hdnone
    have h3 : Engine.analyzer_node o.analyzer
        (applyPatch (applyPatch s p) { errors := some es }) =
        .error "KeyError: discovery" := by
      unfold Engine.analyzer_node
      rw [h2]
    rw [h3]

/-- Collaborator doubles for which validation classifies the document as
not legal. -/
def c2wOracles : Engine.Oracles :=
  { llm := fun _ => .ok "NO",
    discovery := fun _ => .ok [],
    analyzer := fun _ => .ok [],
    translator := fun _ => .ok [] }

/-- The patch the validator returns for a not-legal verdict. -/
def c2wPatch : Patch :=
  { is_legal := some false, errors := some [Engine.notLegalMsg] }

/-- Witness for the amended C2.  First half: a not-legal verdict leaves
non-empty errors after validation and the run stops after validator and
indexer.  Second half: after a concrete discovery failure the run aborts
with the KeyError. -/
theorem c2_guard_witness :
    (Engine.validator_node c2wOracles.llm c2State = .ok c2wPatch ∧
      (applyPatch c2State c2wPatch).errors ≠ [] ∧
      Engine.runAnalysisBranch c2wOracles c2State =
        .ok (applyPatch c2State c2wPatch, ["validator", "indexer"])) ∧
    (Engine.validator_node c2Oracles.llm c2State = .ok c2yPatch ∧
      Engine.route_after_validation (applyPatch c2State c2yPatch) = "discovery" ∧
      (applyPatch c2State c2yPatch).discovery = none ∧
      Engine.discovery_node c2Oracles.discovery (applyPatch c2State c2yPatch) =
        { errors := some ["Discovery error: boom"] } ∧
      Engine.runAnalysisBranch c2Oracles c2State = .error "KeyError: discovery") :=
  ⟨⟨rfl, by decide,
      c2_guard_only_after_validation.1 c2wOracles c2State c2wPatch rfl (by decide)⟩,
    ⟨rfl, rfl, rfl, rfl,
      c2_guard_only_after_validation.2 c2Oracles c2State c2yPatch
        ["Discovery error: boom"] rfl rfl rfl rfl⟩⟩

/-- Collaborator doubles in which the validator's model call raises. -/
def c3Oracles : Engine.Oracles :=
  { llm := fun _ => .error "boom",
    discovery := fun _ => .ok [],
    analyzer := fun _ => .ok [],
    translator := fun _ => .ok [] }

/-- C3 counterexample: `validator_node` wraps its model call in no
try/except, so a collaborator exception propagates out of the node
(`Except.error`, not a patch appending to `errors`) and aborts the whole
orchestrator run — refuting "for every Stage Node, an exception raised by
its underlying collaborator call is caught at the node boundary". -/
theorem c3_counterexample :
    Engine.validator_node c3Oracles.llm c2State = .error "boom" ∧
    Engine.runAnalysisBranch c3Oracles c2State = .error "boom" :=
  ⟨rfl, rfl⟩

/-- C3 amended: only some Stage Nodes catch.  The discovery node of
engine.py and the brain node of unified_engine.py always convert a
collaborator exception into an `errors` append; the analyzer and
translator nodes do so only when their input channels are present
(`discovery`; `discovery` and `analysis`) — when an input channel is
missing (reachable right after an upstream failure) their bracket access
outside the try raises an uncaught KeyError that propagates and aborts
the run; and the validator node catches nothing, so its collaborator
exception propagates (see the C3 counterexample). -/
theorem c3_catching_nodes :
    (∀ (e : String) (s : AgentState),
      Engine.discovery_node (fun _ => .error e) s =
        { errors := some ["Discovery error: " ++ e] }) ∧
    (∀ (e : String) (s : AgentState) (d : PyDict), s.discovery = some d →
      Engine.analyzer_node (fun _ => .error e) s =
        .ok { errors := some ["Analysis error: " ++ e] }) ∧
    (∀ (e : String) (s : AgentState) (d a : PyDict),
      s.discovery = some d → s.analysis = some a →
      Engine.translator_node (fun _ => .error e) s =
        .ok { errors := some ["Translation error: " ++ e] }) ∧
    (∀ (e : String) (s : AgentState),
      Unified.brain_node (fun _ => .error e) s =
        { errors := some ["Brain error: " ++ e] }) ∧
    (∀ (f : PyDict → Except String PyDict) (s : AgentState), s.discovery = none →
      Engine.analyzer_node f s = .error "KeyError: discovery") ∧
    (∀ (f : PyDict × PyDict → Except String PyDict) (s : AgentState),
      s.discovery = none →
      Engine.translator_node f s = .error "KeyError: discovery") ∧
    (∀ (f : PyDict × PyDict → Except String PyDict) (s : AgentState) (d : PyDict),
      s.discovery = some d → s.analysis = none →
      Engine.translator_node f s = .error "KeyError: analysis") := by
  refine ⟨fun e s => rfl, ?_, ?_, fun e s => rfl, ?_, ?_, ?_⟩
  · intro e s d hd
    unfold Engine.analyzer_node
    rw [hd]
  · intro e s d a hd ha
    unfold Engine.translator_node
    rw [hd, ha]
  · intro f s hd
    unfold Engine.analyzer_node
    rw [hd]
  · intro f s hd
    unfold Engine.translator_node
    rw [hd]
  · intro f s d hd ha
    unfold Engine.translator_node
    rw [hd, ha]

/-- A state whose `discovery` channel is written. -/
def c3dState : AgentState := { baseState with discovery := some [("parties", "A")] }

/-- A state whose `discovery` and `analysis` channels are written. -/
def c3daState : AgentState := { c3dState with analysis := some [("risk", "low")] }

/-- Witness for the amended C3: each catching case and each KeyError case
at a concrete state. -/
theorem c3_witness :
    Engine.discovery_node (fun _ => .error "boom") baseState =
      { errors := some ["Discovery error: boom"] } ∧
    Engine.analyzer_node (fun _ => .error "boom") c3dState =
      .ok { errors := some ["Analysis error: boom"] } ∧
    Engine.translator_node (fun _ => .error "boom") c3daState =
      .ok { errors := some ["Translation error: boom"] } ∧
    Unified.brain_node (fun _ => .error "boom") baseState =
      { errors := some ["Brain error: boom"] } ∧
    Engine.analyzer_node (fun _ => .ok []) baseState = .error "KeyError: discovery" ∧
    Engine.translator_node (fun _ => .ok []) baseState = .error "KeyError: discovery" ∧
    Engine.translator_node (fun _ => .ok []) c3dState = .error "KeyError: analysis" :=
  ⟨c3_catching_nodes.1 "boom" baseState,
    c3_catching_nodes.2.1 "boom" c3dState [("parties", "A")] rfl,
    c3_catching_nodes.2.2.1 "boom" c3daState [("parties", "A")] [("risk", "low")] rfl rfl,
    c3_catching_nodes.2.2.2.1 "boom" baseState,
    c3_catching_nodes.2.2.2.2.1 (fun _ => .ok []) baseState rfl,
    c3_catching_nodes.2.2.2.2.2.1 (fun _ => .ok []) baseState rfl,
    c3_catching_nodes.2.2.2.2.2.2 (fun _ => .ok []) c3dState [("parties", "A")] rfl rfl⟩

/-- A unified-agent double that classifies the document as not legal. -/
def c5wAgent : String → Except String Unified.BrainResult :=
  fun _ => .ok { is_legal := false, dump := [("doc_type", "NDA")] }

/-- C5: whenever the validation stage yields a not-legal verdict, the
resulting session state has non-empty `errors` (the fixed message) and
its `analysis` and `final_summary` fields are never set: no downstream
analysis stage runs.  First conjunct: engine.py (`validator_node` plus
the graph); second conjunct: unified_engine.py (`brain_node` plus the
graph). -/
theorem c5_validation_not_legal :
    (∀ (o : Engine.Oracles) (s : AgentState) (resp : String),
      o.llm (Engine.validatorPrompt (strTake s.raw_text 2000)) = .ok resp →
      containsSub "YES" (strToUpper resp) = false →
      s.analysis = none → s.final_summary = none →
      ∃ st, Engine.runAnalysisBranch o s = .ok (st, ["validator", "indexer"]) ∧
        st.errors = [Engine.notLegalMsg] ∧ st.analysis = none ∧
        st.final_summary = none) ∧
    (∀ (agent : String → Except String Unified.BrainResult) (s : AgentState)
      (r : Unified.BrainResult),
      agent (strTake s.raw_text 15000) = .ok r → r.is_legal = false →
      s.final_summary = none →
      (Unified.runAnalyzePath agent s).errors = [Unified.notRecognizedMsg] ∧
      (Unified.runAnalyzePath agent s).final_summary = none) := by
  constructor
  · intro o s resp hllm hno ha hf
    have hv : Engine.validator_node o.llm s =
        .ok { is_legal := some false, errors := some [Engine.notLegalMsg] } := by
      unfold Engine.validator_node
      rw [hllm]
      simp [hno]
    refine ⟨applyPatch s { is_legal := some false, errors := some [Engine.notLegalMsg] },
      ?_, rfl, ?_, ?_⟩
    · exact runAnalysisBranch_stops_of_errors o s _ hv (by simp [applyPatch])
    · show s.analysis = none
      exact ha
    · show s.final_summary = none
      exact hf
  · intro agent s r hag hleg hf
    have hb : Unified.brain_node agent s =
        { is_legal := some false, errors := some [Unified.notRecognizedMsg] } := by
      unfold Unified.brain_node
      rw [hag]
      simp [hleg]
    unfold Unified.runAnalyzePath
    rw [hb, applyPatch_empty]
    exact ⟨rfl, hf⟩

/-- Witness for C5: with a model double answering "NO" (engine) and a
unified agent double returning a not-legal record, the concrete runs show
non-empty errors and unset analysis/summary fields. -/
theorem c5_witness :
    c2wOracles.llm (Engine.validatorPrompt (strTake c2State.raw_text 2000)) = .ok "NO" ∧
    containsSub "YES" (strToUpper "NO") = false ∧
    c2State.analysis = none ∧ c2State.final_summary = none ∧
    (∃ st, Engine.runAnalysisBranch c2wOracles c2State =
        .ok (st, ["validator", "indexer"]) ∧
      st.errors = [Engine.notLegalMsg] ∧ st.analysis = none ∧
      st.final_summary = none) ∧
    (Unified.runAnalyzePath c5wAgent c2State).errors = [Unified.notRecognizedMsg] ∧
    (Unified.runAnalyzePath c5wAgent c2State).final_summary = none :=
  ⟨rfl, by decide, rfl, rfl,
    c5_validation_not_legal.1 c2wOracles c2State "NO" rfl (by decide) rfl rfl,
    c5_validation_not_legal.2 c5wAgent c2State
      { is_legal := false, dump := [("doc_type", "NDA")] } rfl rfl rfl⟩

/-- The checkpointed state of a session whose validation failed, when the
user then requests chat on that session: mode is "chat", `final_summary`
is unset and `errors` holds the not-legal message.  `route_entry` sends
this state back into the validator (the chat-fallback rerun of the
source). -/
def c6PriorState : AgentState :=
  { c2State with mode := some "chat", is_legal := false, errors := [Engine.notLegalMsg] }

/-- C6 counterexample: a reachable stage patch REPLACES existing error
entries.  A session whose validation failed holds
`errors = [not-legal message]`; a chat request routes it back into the
validator (chat-fallback), and when validation now succeeds the
validator's patch `{"errors": []}` is merged: `errors` becomes `[]`, so
the previous errors sequence is not a prefix of the resulting one — the
`errors` channel has no reducer annotation and is last-value, not
append-only. -/
theorem c6_counterexample :
    Engine.route_entry c6PriorState = "validator" ∧
    Engine.validator_node c2Oracles.llm c6PriorState = .ok c2yPatch ∧
    c6PriorState.errors = [Engine.notLegalMsg] ∧
    (applyPatch c6PriorState c2yPatch).errors = [] ∧
    List.isPrefixOf c6PriorState.errors (applyPatch c6PriorState c2yPatch).errors =
      false :=
  ⟨rfl, rfl, rfl, rfl, by decide⟩

/-- C6 amended: `errors` is a last-value channel, not append-only — a
stage patch that contains an `errors` field replaces the previous errors
sequence entirely, a patch without one leaves it unchanged; only
`messages` is merged through the append-style `add_messages` reducer. -/
theorem c6_errors_last_write_wins (s : AgentState) (es : List String) (ms : List Message) :
    (applyPatch s { errors := some es }).errors = es ∧
    (applyPatch s ({} : Patch)).errors = s.errors ∧
    (applyPatch s { messages := some ms }).errors = s.errors ∧
    (applyPatch s { messages := some ms }).messages = addMessages s.messages ms :=
  ⟨rfl, rfl, rfl, rfl⟩

/-- Collaborator doubles for which validation says "YES" and every
downstream agent succeeds. -/
def c8yOracles : Engine.Oracles :=
  { llm := fun _ => .ok "YES",
    discovery := fun _ => .ok [("parties", "A and B")],
    analyzer := fun _ => .ok [("risk", "low")],
    translator := fun _ => .ok [("verdict", "ok")] }

/-- C8 counterexample: the code contains no empty-input check and no
"No text provided..." message.  Running the analysis path on
`rawText=""` sends the empty text to the validation collaborator like any
other text: with a collaborator answering "NO" the resulting errors are
the fixed not-legal message (which does not even contain "No text
provided"); with a collaborator answering "YES" and succeeding downstream
agents, the discovery and analysis stages DO execute on the empty
input. -/
theorem c8_counterexample :
    (Engine.runAnalysisBranch c2wOracles baseState).map (fun r => (r.1.errors, r.2)) =
      Except.ok ([Engine.notLegalMsg], ["validator", "indexer"]) ∧
    containsSub "No text provided" Engine.notLegalMsg = false ∧
    (Engine.runAnalysisBranch c8yOracles baseState).map (fun r => r.2) =
      Except.ok ["validator", "indexer", "discovery", "analyzer", "translator"] :=
  ⟨rfl, by decide, rfl⟩

/-- C8 amended: `rawText=""` routed through the analysis path enters the
validator (the entry router sends a fresh state to "validator"); there is
no empty-input short-circuit, so the outcome is the validation verdict on
the empty text: when the collaborator classifies it as not legal, the run
yields `errors=["The uploaded file does not appear to be a legal
document."]` and no discovery or analysis stage executes. -/
theorem c8_empty_input (o : Engine.Oracles) (resp : String)
    (hllm : o.llm (Engine.validatorPrompt "") = .ok resp)
    (hno : containsSub "YES" (strToUpper resp) = false) :
    Engine.route_entry baseState = "validator" ∧
    ∃ st, Engine.runAnalysisBranch o baseState = .ok (st, ["validator", "indexer"]) ∧
      st.errors = [Engine.notLegalMsg] ∧ st.analysis = none ∧
      st.final_summary = none := by
  constructor
  · rfl
  · have h0 : strTake baseState.raw_text 2000 = "" := rfl
    have hv : Engine.validator_node o.llm baseState =
        .ok { is_legal := some false, errors := some [Engine.notLegalMsg] } := by
      unfold Engine.validator_node
      rw [h0, hllm]
      simp [hno]
    exact ⟨applyPatch baseState { is_legal := some false, errors := some [Engine.notLegalMsg] },
      runAnalysisBranch_stops_of_errors o baseState _ hv (by simp [applyPatch]),
      rfl, rfl, rfl⟩

/-- Witness for the amended C8: the concrete empty-input run with a
"NO"-answering collaborator. -/
theorem c8_witness :
    c2wOracles.llm (Engine.validatorPrompt "") = Except.ok "NO" ∧
    containsSub "YES" (strToUpper "NO") = false ∧
    (Engine.route_entry baseState = "validator" ∧
      ∃ st, Engine.runAnalysisBranch c2wOracles baseState =
          .ok (st, ["validator", "indexer"]) ∧
        st.errors = [Engine.notLegalMsg] ∧ st.analysis = none ∧
        st.final_summary = none) :=
  ⟨rfl, by decide, c8_empty_input c2wOracles "NO" rfl (by decide)⟩

/-- C4: for every chat turn the Chat Tool Loop makes at most two model
attempts; every response it returns is free of leaked tool-call markup;
and against a model that always returns literal tool-call markup it
terminates within the ceiling and appends the fixed graceful-degradation
fallback message (never the leaked markup). -/
theorem c4_chat_tool_loop (llm : List Message → Message) (s : AgentState) :
    (Unified.chat_agent llm s).2 ≤ 2 ∧
    (∀ m ∈ ((Unified.chat_agent llm s).1.messages.getD []), Unified.leaked m = false) ∧
    ((∀ ms, Unified.leaked (llm ms) = true) →
      Unified.chat_agent llm s = ({ messages := some [Unified.fallbackMessage] }, 2)) := by
  have hfb : Unified.leaked Unified.fallbackMessage = false := by decide
  refine ⟨?_, ?_, ?_⟩
  · simp only [Unified.chat_agent]
    split_ifs <;> norm_num
  · simp only [Unified.chat_agent]
    split_ifs with h1 h2
    · intro m hm
      simp only [Option.getD, List.mem_singleton] at hm
      rw [hm]
      exact hfb
    · intro m hm
      simp only [Option.getD, List.mem_singleton] at hm
      simp only [Bool.not_eq_true] at h2
      rw [hm]
      exact h2
    · intro m hm
      simp only [Option.getD, List.mem_singleton] at hm
      simp only [Bool.not_eq_true] at h1
      rw [hm]
      exact h1
  · intro hall
    simp only [Unified.chat_agent]
    rw [if_pos (hall _), if_pos (hall _)]

/-- A model double that always leaks tool-call markup in its text. -/
def alwaysLeakMsg : Message :=
  { role := Role.ai, content := "Sure: " ++ Unified.leakedTag1 ++ " stuff",
    id := none, tool_calls := [] }

/-- Witness for C4: against the always-leaking model double the loop
returns exactly the fallback message after two attempts. -/
theorem c4_witness :
    Unified.chat_agent (fun _ => alwaysLeakMsg) chatReadyState =
      ({ messages := some [Unified.fallbackMessage] }, 2) :=
  (c4_chat_tool_loop (fun _ => alwaysLeakMsg) chatReadyState).2.2 (fun _ => by decide)

theorem applyPatch_messages (s : AgentState) (p : Patch) (ms : List Message)
    (h : p.messages = some ms) :
    (applyPatch s p).messages = addMessages s.messages ms := by
  simp [applyPatch, h]

theorem addOneMessage_id_none (old : List Message) (m : Message) (h : m.id = none) :
    addOneMessage old m = old ++ [m] := by
  unfold addOneMessage
  rw [h]

theorem addMessages_single_id_none (old : List Message) (m : Message) (h : m.id = none) :
    addMessages old [m] = old ++ [m] := by
  simp only [addMessages, List.foldl_cons, List.foldl_nil]
  exact addOneMessage_id_none old m h

/-- The Chat Tool Loop's patch always carries exactly one message: the
model response of a successful attempt or the fallback message. -/
theorem chat_agent_patch_shape (resp : Message) (s : AgentState) :
    (Unified.chat_agent (fun _ => resp) s).1.messages = some [resp] ∨
    (Unified.chat_agent (fun _ => resp) s).1.messages = some [Unified.fallbackMessage] := by
  simp only [Unified.chat_agent]
  split_ifs <;> simp

/-- One chat turn appends the user message and exactly one id-less
assistant message to the history. -/
theorem chatTurn_messages (u r : Message) (s : AgentState) (hu : u.id = none)
    (hr : r.id = none) :
    ∃ x : Message, (Unified.chatTurn u r s).messages = (s.messages ++ [u]) ++ [x] := by
  unfold Unified.chatTurn
  have h1 : (applyPatch s { messages := some [u], mode := some (some "chat") }).messages =
      s.messages ++ [u] := by
    rw [applyPatch_messages _ _ [u] rfl]
    exact addMessages_single_id_none s.messages u hu
  set s1 := applyPatch s { messages := some [u], mode := some (some "chat") } with hs1
  set s2 := applyPatch s1 { mode := some s1.mode } with hs2
  have h2 : s2.messages = s.messages ++ [u] := by
    rw [hs2]
    exact h1
  rcases chat_agent_patch_shape r s2 with hp | hp
  · refine ⟨r, ?_⟩
    rw [applyPatch_messages _ _ [r] hp, addMessages_single_id_none _ r hr, h2]
  · refine ⟨Unified.fallbackMessage, ?_⟩
    rw [applyPatch_messages _ _ [Unified.fallbackMessage] hp,
      addMessages_single_id_none _ Unified.fallbackMessage rfl, h2]

/-- C7: `messages` is append-only across any sequence of chat turns in
which the incoming user messages and model responses carry no pre-set id
(as langchain constructs them; the `add_messages` reducer then assigns
fresh uuids and appends): the earlier history is a prefix of the later
history, so no earlier message is altered, removed or overwritten. -/
theorem c7_messages_append_only (turns : List (Message × Message)) (s : AgentState)
    (h : ∀ t ∈ turns, t.1.id = none ∧ t.2.id = none) :
    s.messages <+: (Unified.runChatTurns turns s).messages := by
  revert h
  induction turns generalizing s with
  | nil =>
    intro _
    exact List.prefix_rfl
  | cons t ts ih =>
    intro h
    have ht := h t (List.mem_cons_self t ts)
    obtain ⟨x, hx⟩ := chatTurn_messages t.1 t.2 s ht.1 ht.2
    have step : s.messages <+: (Unified.chatTurn t.1 t.2 s).messages := by
      rw [hx]
      exact (List.prefix_append s.messages [t.1]).trans (List.prefix_append _ [x])
    have hrun : Unified.runChatTurns (t :: ts) s =
        Unified.runChatTurns ts (Unified.chatTurn t.1 t.2 s) := rfl
    rw [hrun]
    exact step.trans
      (ih (Unified.chatTurn t.1 t.2 s) (fun t' ht' => h t' (List.mem_cons_of_mem _ ht')))

def c7UserMsg : Message :=
  { role := Role.human, content := "What does clause 3 mean?", id := none, tool_calls := [] }

def c7RespMsg : Message :=
  { role := Role.ai, content := "Clause 3 sets the notice period.", id := none,
    tool_calls := [] }

def c7State : AgentState :=
  { chatReadyState with
    messages := [{ role := Role.human, content := "hello", id := none, tool_calls := [] }] }

/-- Witness for C7: a concrete chat turn on a non-empty history keeps the
prior history as a prefix. -/
theorem c7_witness :
    c7State.messages <+: (Unified.runChatTurns [(c7UserMsg, c7RespMsg)] c7State).messages :=
  c7_messages_append_only [(c7UserMsg, c7RespMsg)] c7State (by decide)

/-- C9: with a populated store, a query embeds the query text and returns
exactly the top-3 chunks by similarity score over the ENTIRE index: the
result is the 3-prefix of the store sorted by descending score, its
length is `min 3 n`, every returned chunk comes from the whole store (no
filtering by documentId or requesting session — `query_contract` takes no
document or session argument at all), and every returned chunk scores at
least as high as every chunk left out. -/
theorem c9_query_top3 (rag : LegalRAG) (q : String) (chunks : List Chunk)
    (h : rag.vector_db = some chunks) :
    ∃ r, rag.query_contract q = Sum.inr r ∧
      r = (chunks.mergeSort (fun a b => decide (rag.score q b ≤ rag.score q a))).take 3 ∧
      r.length = min 3 chunks.length ∧
      (∀ c ∈ r, c ∈ chunks) ∧
      (∀ x ∈ r, ∀ y ∈ chunks, y ∉ r → rag.score q y ≤ rag.score q x) := by
  set le := fun a b => decide (rag.score q b ≤ rag.score q a) with hle
  set sorted := chunks.mergeSort le with hsorted
  refine ⟨sorted.take 3, ?_, rfl, ?_, ?_, ?_⟩
  · unfold LegalRAG.query_contract
    rw [h]
    rfl
  · rw [List.length_take, List.length_mergeSort]
  · intro c hc
    exact List.mem_mergeSort.mp (List.mem_of_mem_take hc)
  · intro x hx y hy hyr
    have htrans : ∀ (a b c : Chunk), le a b → le b c → le a c := by
      intro a b c hab hbc
      simp only [hle, decide_eq_true_eq] at hab hbc ⊢
      exact le_trans hbc hab
    have htotal : ∀ (a b : Chunk), le a b || le b a := by
      intro a b
      simp only [hle, Bool.or_eq_true, decide_eq_true_eq]
      exact le_total _ _
    have hsort := List.sorted_mergeSort htrans htotal chunks
    rw [← hsorted] at hsort
    have hy' : y ∈ sorted := List.mem_mergeSort.mpr hy
    rw [← List.take_append_drop 3 sorted] at hy'
    have hyd : y ∈ sorted.drop 3 := (List.mem_append.mp hy').resolve_left hyr
    rw [← List.take_append_drop 3 sorted] at hsort
    have hrel := (List.pairwise_append.mp hsort).2.2 x hx y hyd
    simp only [hle, decide_eq_true_eq] at hrel
    exact hrel

def wEmb : String → List Int
  | "alpha" => [3, 1]
  | "beta" => [2, 1]
  | "gamma" => [1, 1]
  | "delta" => [0, 1]
  | _ => [1, 0]

/-- A store holding chunks of two different documents. -/
def wChunks : List Chunk :=
  [ { text := "alpha", start_index := 0, doc_id := "D1" },
    { text := "beta", start_index := 0, doc_id := "D2" },
    { text := "gamma", start_index := 0, doc_id := "D1" },
    { text := "delta", start_index := 0, doc_id := "D2" } ]

def wRag : LegalRAG := { emb := wEmb, vector_db := some wChunks }

/-- Witness for C9 on a concrete two-document index. -/
theorem c9_witness :
    wRag.vector_db = some wChunks ∧
    (∃ r, wRag.query_contract "find" = Sum.inr r ∧
      r = (wChunks.mergeSort
        (fun a b => decide (wRag.score "find" b ≤ wRag.score "find" a))).take 3 ∧
      r.length = min 3 wChunks.length ∧
      (∀ c ∈ r, c ∈ wChunks) ∧
      (∀ x ∈ r, ∀ y ∈ wChunks, y ∉ r →
        wRag.score "find" y ≤ wRag.score "find" x)) :=
  ⟨rfl, c9_query_top3 wRag "find" wChunks rfl⟩

/-- C10: a query issued before any `index_document` call on a freshly
constructed `LegalRAG` (its `vector_db` still unset) returns the fixed
string "No document indexed." — a string (`Sum.inl`), not an empty chunk
list. -/
theorem c10_query_before_indexing (emb : String → List Int) (q : String) :
    (LegalRAG.init emb).query_contract q = Sum.inl "No document indexed." := rfl
